import Mathlib

/-!
Verification of `conv_img_to_custom_bichrome.py`: the bichrome image
conversion pipeline (grayscale reduction, binary thresholding, per-pixel
color substitution, optional resize) and the folder batch driver.

Images are modelled as lists of rows, each row a list of RGB colors with
natural-number channels.  All definitions follow the Python source in
`src/conv_img_to_custom_bichrome.py`; external library behaviour (the
grayscale reduction and the smoothing resize filter) is modelled from the
specification where noted.
-/

/-- An RGB color: an ordered triple of channel values. -/
abbrev Color := Nat × Nat × Nat

/-- An image: a list of rows, each row a list of colors. -/
abbrev Img := List (List Color)

/-- Modelled from the spec: the grayscale reduction performed by the image
library call `image.convert("L")` — the ITU-R 601 luma formula "used by
common image libraries", in 16-bit fixed point with truncation
(weights 19595, 38470, 7471 sum to 65536). -/
def luminance (c : Color) : Nat :=
  (19595 * c.1 + 38470 * c.2.1 + 7471 * c.2.2) / 65536

/-- The fixed luminance cutoff (source line 20: `threshold = 128`). -/
def threshold : Nat := 128

/-- The thresholding lambda of source line 21:
`lambda x: 255 if x > threshold else 0`. -/
def binarize (x : Nat) : Nat :=
  if x > threshold then 255 else 0

/-- Conversion of the binary image back to RGB (source line 24,
`bw_image.convert("RGB")`): value 255 becomes (255,255,255) and 0 becomes
(0,0,0); on the 0/255 values the binarization emits this is channel
replication. -/
def toRGB (v : Nat) : Color := (v, v, v)

/-- The binarized RGB image (source lines 19-24): grayscale reduction,
thresholding, conversion back to RGB, applied pixel-wise. -/
def bw_of (img : Img) : Img :=
  img.map (fun row => row.map (fun p => toRGB (binarize (luminance p))))

/-- Source lines 26-31, `replace_pixel_color`: white pixels become
`white_color`, black pixels become `black_color`, and any other pixel is
returned unchanged (the fall-through branch). -/
def replace_pixel_color (black_color white_color : Color) (pixel : Color) : Color :=
  if pixel = (255, 255, 255) then white_color
  else if pixel = (0, 0, 0) then black_color
  else pixel

/-- The recolored image (source lines 33-38): a fresh image of the same
size with `replace_pixel_color` applied to every pixel. -/
def replaced_image_of (black_color white_color : Color) (img : Img) : Img :=
  img.map (fun row => row.map (replace_pixel_color black_color white_color))

/-- The image produced by the Color Mapper stage, before any resize:
binarization followed by recoloring. -/
def mapped_image (black_color white_color : Color) (img : Img) : Img :=
  replaced_image_of black_color white_color (bw_of img)

/-- The per-pixel composition of threshold and recolor stages, as applied
by the nested loop of source lines 36-38 to each source pixel. -/
def pixelOut (black_color white_color : Color) (p : Color) : Color :=
  replace_pixel_color black_color white_color (toRGB (binarize (luminance p)))

/-- Whether the Thresholder classifies a source pixel as light:
its binarized value is 255 (true) rather than 0 (dark). -/
def isLight (p : Color) : Bool :=
  binarize (luminance p) = 255

/-- Modelled from the spec: the smoothing resampling filter of the Resizer
(the library ANTIALIAS filter invoked at source line 42) — each output
pixel averages the block of source pixels its footprint covers
(channel-wise mean).  Average of a list of channel values. -/
def avgNat (xs : List Nat) : Nat := xs.sum / xs.length

/-- Channel-wise average of a list of colors. -/
def avgColor (ps : List Color) : Color :=
  (avgNat (ps.map (fun p => p.1)),
   avgNat (ps.map (fun p => p.2.1)),
   avgNat (ps.map (fun p => p.2.2)))

/-- The block of source pixels covered by output pixel (x, y) when scaling
a W×H image to w×h: source columns from x*W/w up to (x+1)*W/w (at least
one), and likewise for rows. -/
def srcBlock (img : Img) (W H w h x y : Nat) : List Color :=
  ((List.range' (y * H / h) (max ((y + 1) * H / h) (y * H / h + 1) - y * H / h)).map
    (fun sy =>
      (List.range' (x * W / w) (max ((x + 1) * W / w) (x * W / w + 1) - x * W / w)).map
        (fun sx => (img.getD sy []).getD sx (0, 0, 0)))).flatten

/-- Modelled from the spec: the Resizer, scaling the mapped image to
exactly the requested dimensions with the smoothing (averaging) filter.
Non-positive requested dimensions simply produce that many rows/columns;
the source performs no validation of the dimensions. -/
def resizeImage (dim : Int × Int) (img : Img) : Img :=
  let w := dim.1.toNat
  let h := dim.2.toNat
  let W := (img.headD []).length
  let H := img.length
  (List.range h).map (fun y =>
    (List.range w).map (fun x => avgColor (srcBlock img W H w h x y)))

/-- The observable trace of one `replace_colors` run (source lines 16-48,
restricted to the in-memory transform: the input/output paths and the
`cleanup` encoding flag do not affect pixel content): the produced image
and whether the resize stage was invoked. -/
structure RunTrace where
  output : Img
  resizeInvoked : Bool
  deriving DecidableEq

/-- Source `replace_colors` (lines 16-48): binarize, recolor, and resize
exactly when `resize_dim` is provided (the Python guard `if resize_dim:`
is true for every two-element tuple, zero or negative components
included; there is no dimension check anywhere). -/
def replace_colors (black_color white_color : Color)
    (resize_dim : Option (Int × Int)) (img : Img) : RunTrace :=
  let replaced := mapped_image black_color white_color img
  match resize_dim with
  | none => ⟨replaced, false⟩
  | some d => ⟨resizeImage d replaced, true⟩

/-- The dimensions (width, height) of an image, as the library reports
them for the rectangular images the pipeline produces. -/
def dims (img : Img) : Nat × Nat := ((img.headD []).length, img.length)

/-- The supported-extension filter of source line 63: the lowercased file
name must end with one of ".png", ".jpg", ".jpeg", ".bmp", ".gif".
File names are modelled as lists of characters. -/
def supported_image_name (file_name : List Char) : Bool :=
  let l := file_name.map Char.toLower
  List.isSuffixOf ".png".data l || List.isSuffixOf ".jpg".data l ||
    List.isSuffixOf ".jpeg".data l || List.isSuffixOf ".bmp".data l ||
    List.isSuffixOf ".gif".data l

/-- A file of the source folder: its name together with the result of
decoding it (`none` models a file on which `Image.open` raises, e.g. a
corrupt image). -/
structure SrcFile where
  name : List Char
  decoded : Option Img

/-- Processing one file of the batch: `replace_colors` on the decoded
image, or the propagated decode exception (carrying the name of the
failing file) when decoding fails. -/
def process_file (black_color white_color : Color)
    (resize_dim : Option (Int × Int)) (f : SrcFile) : Except (List Char) Img :=
  match f.decoded with
  | none => Except.error f.name
  | some img => Except.ok (replace_colors black_color white_color resize_dim img).output

/-- Source `process_images_in_folder` (lines 52-68).  The loop body has no
exception handling, so the first exception raised by `replace_colors`
propagates and aborts the remaining iterations.  The result records the
outputs written to the `processed_images` folder (first component) and
what the caller observes as the return: the propagated exception, or the
Python return value None (here `()`) — the function keeps no counts and
returns no summary. -/
def process_images_in_folder (black_color white_color : Color)
    (resize_dim : Option (Int × Int)) :
    List SrcFile → (List (List Char × Img)) × Except (List Char) Unit
  | [] => ([], Except.ok ())
  | f :: rest =>
    if supported_image_name f.name then
      match process_file black_color white_color resize_dim f with
      | Except.error e => ([], Except.error e)
      | Except.ok out =>
        let r := process_images_in_folder black_color white_color resize_dim rest
        ((f.name, out) :: r.1, r.2)
    else process_images_in_folder black_color white_color resize_dim rest

theorem luminance_gray (g : Nat) : luminance (g, g, g) = g := by
  simp [luminance]
  omega

theorem mapped_image_eq (bc wc : Color) (img : Img) :
    mapped_image bc wc img = img.map (fun row => row.map (pixelOut bc wc)) := by
  simp [mapped_image, replaced_image_of, bw_of, pixelOut, List.map_map, Function.comp]

theorem pixelOut_dark (bc wc p : Color) (h : luminance p ≤ 128) :
    pixelOut bc wc p = bc := by
  have hb : binarize (luminance p) = 0 := by
    simp [binarize, threshold, Nat.not_lt.mpr h]
  simp only [pixelOut, hb, toRGB, replace_pixel_color]
  rw [if_neg (by decide)]
  simp

theorem pixelOut_light (bc wc p : Color) (h : 128 < luminance p) :
    pixelOut bc wc p = wc := by
  have hb : binarize (luminance p) = 255 := by
    simp [binarize, threshold, h]
  simp only [pixelOut, hb, toRGB, replace_pixel_color]
  simp

theorem pixelOut_cases (bc wc p : Color) :
    pixelOut bc wc p = bc ∨ pixelOut bc wc p = wc := by
  rcases le_or_lt (luminance p) 128 with h | h
  · exact Or.inl (pixelOut_dark bc wc p h)
  · exact Or.inr (pixelOut_light bc wc p h)

theorem binarize_cases (x : Nat) : binarize x = 0 ∨ binarize x = 255 := by
  unfold binarize
  split <;> simp

theorem map_fixed {α : Type} (f : α → α) :
    ∀ l : List α, (∀ a ∈ l, f a = a) → l.map f = l
  | [], _ => rfl
  | a :: l, h => by
    rw [List.map_cons, h a (List.mem_cons_self a l),
      map_fixed f l (fun b hb => h b (List.mem_cons_of_mem a hb))]

/-- Claim C1: a source pixel is classified light iff its computed
luminance is strictly greater than 128; a pixel whose luminance is
exactly 128 is classified dark. -/
theorem thresholder_light_iff_gt_128 :
    (∀ p : Color, isLight p = true ↔ 128 < luminance p) ∧
    (∀ p : Color, luminance p = 128 → isLight p = false) := by
  constructor
  · intro p
    simp [isLight, binarize, threshold]
  · intro p h
    simp [isLight, binarize, threshold, h]

/-- Witness for C1 at concrete pixels: (200,200,200) has luminance 200 > 128
and is light; (128,128,128) has luminance exactly 128 and is dark. -/
theorem thresholder_light_iff_gt_128_witness :
    (isLight (200, 200, 200) = true ↔ 128 < luminance (200, 200, 200)) ∧
    isLight (128, 128, 128) = false :=
  ⟨(thresholder_light_iff_gt_128).1 (200, 200, 200),
   (thresholder_light_iff_gt_128).2 (128, 128, 128) (by decide)⟩

/-- Claim C2: in the single-image pipeline without resize, every source
pixel of luminance at most 127 produces darkColor and every pixel of
luminance at least 129 produces lightColor; the 2x2 image with pixel
luminances [10, 200, 128, 129] under the default colors yields
[(0,0,0), (243,239,221), (0,0,0), (243,239,221)]. -/
theorem pipeline_luminance_ranges :
    (∀ (bc wc : Color) (img : Img),
      (replace_colors bc wc none img).output
        = img.map (fun row => row.map (pixelOut bc wc))) ∧
    (∀ bc wc p : Color, luminance p ≤ 127 → pixelOut bc wc p = bc) ∧
    (∀ bc wc p : Color, 129 ≤ luminance p → pixelOut bc wc p = wc) ∧
    (replace_colors (0, 0, 0) (243, 239, 221) none
        [[(10, 10, 10), (200, 200, 200)], [(128, 128, 128), (129, 129, 129)]]).output
      = [[(0, 0, 0), (243, 239, 221)], [(0, 0, 0), (243, 239, 221)]] := by
  refine ⟨fun bc wc img => ?_, fun bc wc p h => ?_, fun bc wc p h => ?_, by decide⟩
  · simp [replace_colors, mapped_image_eq]
  · exact pixelOut_dark bc wc p (by omega)
  · exact pixelOut_light bc wc p (by omega)

/-- Witness for C2 at concrete pixels of luminance 10 and 200. -/
theorem pipeline_luminance_ranges_witness :
    luminance (10, 10, 10) ≤ 127 ∧
    pixelOut (1, 2, 3) (4, 5, 6) (10, 10, 10) = (1, 2, 3) ∧
    129 ≤ luminance (200, 200, 200) ∧
    pixelOut (1, 2, 3) (4, 5, 6) (200, 200, 200) = (4, 5, 6) :=
  ⟨by decide,
   pipeline_luminance_ranges.2.1 (1, 2, 3) (4, 5, 6) (10, 10, 10) (by decide),
   by decide,
   pipeline_luminance_ranges.2.2.1 (1, 2, 3) (4, 5, 6) (200, 200, 200) (by decide)⟩

/-- Claim C3: the image produced by the Color Mapper, before any resize,
contains only the two configured colors: every pixel equals darkColor or
lightColor. -/
theorem mapper_output_only_two_colors :
    ∀ (bc wc : Color) (img : Img), ∀ row ∈ mapped_image bc wc img, ∀ p ∈ row,
      p = bc ∨ p = wc := by
  intro bc wc img row hrow p hp
  rw [mapped_image_eq] at hrow
  obtain ⟨r0, hr0, rfl⟩ := List.mem_map.mp hrow
  obtain ⟨q, hq, rfl⟩ := List.mem_map.mp hp
  exact pixelOut_cases bc wc q

/-- Witness for C3 on a concrete one-pixel image. -/
theorem mapper_output_only_two_colors_witness :
    ((1, 2, 3) : Color) = (1, 2, 3) ∨ ((1, 2, 3) : Color) = (4, 5, 6) :=
  mapper_output_only_two_colors (1, 2, 3) (4, 5, 6) [[(7, 7, 7)]] [(1, 2, 3)]
    (by decide) (1, 2, 3) (by decide)

/-- Claim C9: after binarization every pixel equals exactly (0,0,0) or
(255,255,255), so the fall-through branch of the pixel-replacement
function is unreachable: on such pixels it always returns one of the two
configured colors. -/
theorem binarized_image_pure :
    ∀ img : Img, ∀ row ∈ bw_of img, ∀ p ∈ row,
      (p = ((0, 0, 0) : Color) ∨ p = ((255, 255, 255) : Color)) ∧
      ∀ bc wc : Color,
        replace_pixel_color bc wc p = wc ∨ replace_pixel_color bc wc p = bc := by
  intro img row hrow p hp
  simp only [bw_of] at hrow
  obtain ⟨r0, hr0, rfl⟩ := List.mem_map.mp hrow
  obtain ⟨q, hq, rfl⟩ := List.mem_map.mp hp
  rcases binarize_cases (luminance q) with h | h <;> rw [h]
  · refine ⟨Or.inl rfl, fun bc wc => Or.inr ?_⟩
    simp only [toRGB, replace_pixel_color]
    rw [if_neg (by decide)]
    simp
  · refine ⟨Or.inr rfl, fun bc wc => Or.inl ?_⟩
    simp only [toRGB, replace_pixel_color]
    simp

/-- Witness for C9 on a concrete one-pixel image and concrete colors. -/
theorem binarized_image_pure_witness :
    (((0, 0, 0) : Color) = (0, 0, 0) ∨ ((0, 0, 0) : Color) = (255, 255, 255)) ∧
    (replace_pixel_color (1, 2, 3) (4, 5, 6) (0, 0, 0) = (4, 5, 6) ∨
      replace_pixel_color (1, 2, 3) (4, 5, 6) (0, 0, 0) = (1, 2, 3)) :=
  ⟨(binarized_image_pure [[(0, 0, 0)]] [(0, 0, 0)] (by decide) (0, 0, 0) (by decide)).1,
   (binarized_image_pure [[(0, 0, 0)]] [(0, 0, 0)] (by decide) (0, 0, 0) (by decide)).2
     (1, 2, 3) (4, 5, 6)⟩

/-- Claim C7: on an image that is already bichrome in the default colors
(every pixel (0,0,0) or (243,239,221)), running the pipeline again with
the default colors and no resize reproduces the image pixel for pixel. -/
theorem pipeline_idempotent_on_default_bichrome :
    ∀ img : Img,
      (∀ row ∈ img, ∀ p ∈ row,
        p = ((0, 0, 0) : Color) ∨ p = ((243, 239, 221) : Color)) →
      (replace_colors (0, 0, 0) (243, 239, 221) none img).output = img := by
  intro img h
  have hout : (replace_colors (0, 0, 0) (243, 239, 221) none img).output
      = img.map (fun row => row.map (pixelOut (0, 0, 0) (243, 239, 221))) := by
    simp [replace_colors, mapped_image_eq]
  rw [hout]
  apply map_fixed
  intro row hrow
  apply map_fixed
  intro p hp
  rcases h row hrow p hp with rfl | rfl
  · decide
  · decide

/-- Witness for C7 on a concrete bichrome 1x2 image. -/
theorem pipeline_idempotent_on_default_bichrome_witness :
    (replace_colors (0, 0, 0) (243, 239, 221) none
        [[(0, 0, 0), (243, 239, 221)]]).output = [[(0, 0, 0), (243, 239, 221)]] :=
  pipeline_idempotent_on_default_bichrome [[(0, 0, 0), (243, 239, 221)]] (by decide)

theorem dims_resizeImage (d : Int × Int) (img : Img) (hh : 0 < d.2.toNat) :
    dims (resizeImage d img) = (d.1.toNat, d.2.toNat) := by
  obtain ⟨k, hk⟩ : ∃ k, d.2.toNat = k + 1 := ⟨d.2.toNat - 1, by omega⟩
  simp [resizeImage, dims, hk, List.range_succ_eq_map]

/-- Claim C6: a run without resize preserves the input dimensions; a run
with a requested positive (width, height) produces an output of exactly
those dimensions. -/
theorem output_dims_match_request :
    (∀ (bc wc : Color) (img : Img),
      dims (replace_colors bc wc none img).output = dims img) ∧
    (∀ (bc wc : Color) (img : Img) (w h : Nat), 0 < w → 0 < h →
      dims (replace_colors bc wc (some ((w : Int), (h : Int))) img).output = (w, h)) := by
  constructor
  · intro bc wc img
    cases img with
    | nil => simp [replace_colors, mapped_image, replaced_image_of, bw_of, dims]
    | cons a l => simp [replace_colors, mapped_image, replaced_image_of, bw_of, dims]
  · intro bc wc img w h hw hh
    have hmain := dims_resizeImage ((w : Int), (h : Int)) (mapped_image bc wc img)
      (by simpa using hh)
    simpa [replace_colors] using hmain

/-- Witness for C6: a 1x1 image passed through unchanged, and resized to
2x3. -/
theorem output_dims_match_request_witness :
    dims (replace_colors (1, 2, 3) (4, 5, 6) none [[(7, 7, 7)]]).output
        = dims [[(7, 7, 7)]] ∧
    0 < 2 ∧ 0 < 3 ∧
    dims (replace_colors (1, 2, 3) (4, 5, 6)
        (some ((2 : Int), (3 : Int))) [[(7, 7, 7)]]).output = (2, 3) :=
  ⟨output_dims_match_request.1 (1, 2, 3) (4, 5, 6) [[(7, 7, 7)]],
   by decide, by decide,
   output_dims_match_request.2 (1, 2, 3) (4, 5, 6) [[(7, 7, 7)]] 2 3
     (by decide) (by decide)⟩

/-- Claim C5, refuting evaluation: with requested dimensions (0, 5) the
pipeline performs no validation and raises nothing before the resize: the
resize stage is invoked with the dimensions as given and yields five
empty rows. -/
theorem nonpositive_dims_reach_resize :
    (replace_colors (0, 0, 0) (243, 239, 221) (some (0, 5))
        [[(7, 7, 7)]]).resizeInvoked = true ∧
    (replace_colors (0, 0, 0) (243, 239, 221) (some (0, 5))
        [[(7, 7, 7)]]).output = [[], [], [], [], []] :=
  ⟨rfl, rfl⟩

/-- Claim C4, refuting evaluation: a decode failure on the first file
aborts the whole batch — the error propagates out of the Batch Driver,
and the following valid file is never processed, so no output at all is
written. -/
theorem batch_aborts_on_first_failure :
    process_images_in_folder (0, 0, 0) (243, 239, 221) none
      [⟨"bad.png".data, none⟩, ⟨"good.png".data, some [[(7, 7, 7)]]⟩]
      = ([], Except.error "bad.png".data) :=
  rfl

/-- Claim C8, refuting evaluation: the Batch Driver returns the same
value — the Python None, no summary — to its caller whether the run
attempted one file or three, so the count of attempted files and the
identity of failures are not observable through the returned value. -/
theorem batch_returns_no_summary :
    (process_images_in_folder (0, 0, 0) (243, 239, 221) none
        [⟨"a.png".data, some [[(7, 7, 7)]]⟩]).2 = Except.ok () ∧
    (process_images_in_folder (0, 0, 0) (243, 239, 221) none
        [⟨"a.png".data, some [[(7, 7, 7)]]⟩, ⟨"b.png".data, some [[(9, 9, 9)]]⟩,
         ⟨"c.png".data, some [[(200, 200, 200)]]⟩]).2 = Except.ok () :=
  ⟨rfl, rfl⟩

/-- Claim C10: resizing after color substitution breaks the two-color
guarantee — the already-bichrome 1x2 default-color image resized to 1x1
with the smoothing (averaging) filter yields the blended pixel
(121, 119, 110), different from both configured colors. -/
theorem resize_breaks_two_color_invariant :
    (replace_colors (0, 0, 0) (243, 239, 221) (some (1, 1))
        [[(0, 0, 0), (243, 239, 221)]]).output = [[(121, 119, 110)]] ∧
    ((121, 119, 110) : Color) ≠ (0, 0, 0) ∧
    ((121, 119, 110) : Color) ≠ (243, 239, 221) :=
  ⟨rfl, by decide, by decide⟩
